import Mathlib

/-!
Verification development for the interview flow controller
(`src/agents/interviewer.py`, `src/agents/human_demo.py`,
`src/agents/constants.py`).

The Python code is shallowly embedded: the mutable `AgentState` TypedDict
becomes a Lean structure whose optional keys are `Option` fields
(`state.get(k, d)` becomes `Option.getD`, direct indexing `state[k]`
becomes `pyGet` which fails with `KeyError` on a missing key), list
indexing becomes `listGet?` which fails with `IndexError` out of range,
and every node of the LangGraph `StateGraph` becomes an `Except`-valued
state transformer.  Calls to the language model (the `ModelGateway`) are
external I/O: the text a call returns is passed in as an explicit oracle
argument, and the prompt strings fed to the gateway are not modelled
(they influence nothing but the oracle's answer).
-/

namespace Interviewer

/-- Python exceptions that the embedded code can raise. -/
inductive PyError where
  | indexError
  | keyError
  | typeError
deriving DecidableEq, Repr

/-- Equality of embedded run results is decidable, so concrete runs can be
checked with `decide`. -/
instance {e a : Type} [DecidableEq e] [DecidableEq a] : DecidableEq (Except e a) := fun x y =>
  match x, y with
  | Except.ok u, Except.ok v =>
    if h : u = v then isTrue (by rw [h]) else isFalse (fun he => h (Except.ok.inj he))
  | Except.ok _, Except.error _ => isFalse (fun he => Except.noConfusion he)
  | Except.error _, Except.ok _ => isFalse (fun he => Except.noConfusion he)
  | Except.error u, Except.error v =>
    if h : u = v then isTrue (by rw [h]) else isFalse (fun he => h (Except.error.inj he))

/-- Direct dictionary indexing `state[k]`: `KeyError` when the key is absent. -/
def pyGet {α : Type} (o : Option α) : Except PyError α :=
  match o with
  | some a => Except.ok a
  | none => Except.error PyError.keyError

/-- Python `state[k] += 1`: reads the key directly (KeyError when absent), then adds 1. -/
def pyInc (o : Option Nat) : Except PyError Nat :=
  match o with
  | some n => Except.ok (n + 1)
  | none => Except.error PyError.keyError

/-- Python list indexing `l[i]` for a non-negative index: `IndexError` when `i ≥ len l`. -/
def listGet? {α : Type} (l : List α) (i : Nat) : Except PyError α :=
  match l.get? i with
  | some a => Except.ok a
  | none => Except.error PyError.indexError

/-- Python negative list indexing `l[-k]` (used with k = 1, 2): `IndexError` when `k > len l`. -/
def listGetBack {α : Type} (l : List α) (k : Nat) : Except PyError α :=
  if k ≤ l.length ∧ 0 < k then listGet? l (l.length - k) else Except.error PyError.indexError

/-- Python `dict.get(k, d)` on a string-keyed dict, modelled as an association list
(first binding wins; the source dicts have no duplicate keys). -/
def dictGetD {α : Type} (m : List (String × α)) (k : String) (d : α) : α :=
  (Option.map Prod.snd (m.find? (fun p => p.1 = k))).getD d

/-- A LangChain tool call attached to a model message. -/
structure ToolCall where
  name : String
  args : String
deriving DecidableEq, Repr

/-- Message roles: `m.type` in LangChain ("ai", "human", "tool"). -/
inductive MessageRole where
  | ai
  | human
  | tool
deriving DecidableEq, Repr

/-- A transcript message (`AIMessage` / `HumanMessage` / tool message). -/
structure Message where
  role : MessageRole
  content : String
  id : Option String
  tool_calls : List ToolCall
deriving DecidableEq, Repr

/-- `AIMessage(content=c)` with no tool calls and no explicit id. -/
def aiMessage (c : String) : Message :=
  { role := MessageRole.ai, content := c, id := none, tool_calls := [] }

/-- `HumanMessage(content=c)`. -/
def humanMessage (c : String) : Message :=
  { role := MessageRole.human, content := c, id := none, tool_calls := [] }

/-- One entry of a category's question list in `constants.questions["interview_questions"]`. -/
structure Question where
  question : String
  competency : String
deriving DecidableEq, Repr

/-- The dict returned by `fetch_next_question`: a real question carries
`competency = some c`; the completion sentinel carries `competency = None`. -/
structure QuestionInfo where
  question : String
  competency : Option String
deriving DecidableEq, Repr

/-- One element of `state["eval_results"]` as appended by `evaluate_response`. -/
structure EvalRecord where
  question : String
  competency : Option String
  score : Option Nat
  rationale : String
deriving DecidableEq, Repr

/-- The `AgentState` TypedDict (`total=False`: every key may be absent, hence
`Option` fields).  `questions` holds `state["questions"]["interview_questions"]`
(the only part of the questions dict the controller reads), and `eval_criteria`
holds `state["eval_criteria"]["scoring_criteria"]["competencies"]`. -/
structure AgentState where
  messages : List Message
  idx : Option Nat
  category_idx : Option Nat
  questions : Option (List (String × List Question))
  eval_criteria : Option (List (String × List (String × String)))
  eval_results : Option (List EvalRecord)
  categories : Option (List String)
  follow_up_count : Option Nat
  sufficient_response : Option Bool
  category : Option String
  current_competency : Option (Option String)
  candidate_name : Option String
  position : Option String
  company : Option String
  company_mission : Option String
  remaining_steps : Option Int
  final_evaluation : Option (List (Option String × Rat) × String)
deriving DecidableEq, Repr

/-- `state.get("categories", list(state["questions"]["interview_questions"].keys()))`,
given the already-fetched questions dict `qs`. -/
def categoriesOf (s : AgentState) (qs : List (String × List Question)) : List String :=
  s.categories.getD (qs.map Prod.fst)

/-- The sentinel text returned upon exhausting the last category. -/
def doneText : String := "Interview complete. Thank you for your time!"

/-- The sentinel dict `{"question": doneText, "competency": None}`. -/
def doneInfo : QuestionInfo := { question := doneText, competency := none }

/-- `fetch_next_question` (interviewer.py lines 43-70).  Mutation of the state
dict is modelled by returning the updated state alongside the fetched dict. -/
def fetch_next_question (s : AgentState) : Except PyError (QuestionInfo × AgentState) :=
  match pyGet s.questions with
  | Except.error e => Except.error e
  | Except.ok qs =>
    let categories := categoriesOf s qs
    let category_idx := s.category_idx.getD 0
    match listGet? categories category_idx with
    | Except.error e => Except.error e
    | Except.ok category =>
      let idx := s.idx.getD 0
      let questions_by_category := dictGetD qs category []
      if questions_by_category.length ≤ idx then
        match pyInc s.category_idx with
        | Except.error e => Except.error e
        | Except.ok newCat =>
          let s2 : AgentState := { s with category_idx := some newCat, idx := some 0 }
          if categories.length ≤ newCat then
            Except.ok (doneInfo, s2)
          else
            match listGet? categories newCat with
            | Except.error e => Except.error e
            | Except.ok category2 =>
              match listGet? (dictGetD qs category2 []) 0 with
              | Except.error e => Except.error e
              | Except.ok q =>
                Except.ok ({ question := q.question, competency := some q.competency }, s2)
      else
        match listGet? questions_by_category idx with
        | Except.error e => Except.error e
        | Except.ok q =>
          Except.ok ({ question := q.question, competency := some q.competency }, s)

/-- `determine_next_path` (interviewer.py lines 72-90).  The follow-up branch
touches only keys read through `.get` with defaults; the category branch indexes
`state["questions"]` directly and can raise `KeyError`. -/
def determine_next_path (s : AgentState) : Except PyError String :=
  if s.follow_up_count.getD 0 < 2 ∧ s.sufficient_response.getD false = false then
    Except.ok "follow_up_question"
  else
    match pyGet s.questions with
    | Except.error e => Except.error e
    | Except.ok qs =>
      let current_category := s.category.getD "behavioral"
      let questions := dictGetD qs current_category []
      if questions.length ≤ s.idx.getD 0 + 1 then Except.ok "end_interview"
      else Except.ok "fetch_question"

/-- Python `content.split("\n")` on the character list of the text
(structural recursion so that concrete runs compute; same semantics as
`str.split` with an explicit separator: `"".split` gives `[""]`, a trailing
newline yields a trailing empty line). -/
def splitLines (cs : List Char) : List (List Char) :=
  match cs with
  | [] => [[]]
  | c :: rest =>
    if c = '\n' then [] :: splitLines rest
    else
      match splitLines rest with
      | [] => [[c]]
      | l :: ls => (c :: l) :: ls

/-- Python `str.strip()`: drop leading and trailing whitespace. -/
def pyStrip (l : List Char) : List Char :=
  ((l.dropWhile Char.isWhitespace).reverse.dropWhile Char.isWhitespace).reverse

/-- Python `str.isdigit()`: nonempty and all digit characters. -/
def pyIsDigit (l : List Char) : Bool :=
  !l.isEmpty && l.all Char.isDigit

/-- Python `int(...)` on a string of digits. -/
def digitsToNat (l : List Char) : Nat :=
  l.foldl (fun n c => n * 10 + (c.toNat - 48)) 0

/-- The score extraction of `evaluate_response` (interviewer.py lines 132-137):
`int([line for line in content.split("\n") if line.strip().isdigit()][0])`
wrapped in `try ... except Exception: pass`, so every failure (no such line)
yields an absent score rather than an exception; `int` ignores the surrounding
whitespace that `strip` removed. -/
def extractScore (content : String) : Option Nat :=
  match (splitLines content.toList).filter (fun line => pyIsDigit (pyStrip line)) with
  | [] => none
  | line :: _ => some (digitsToNat (pyStrip line))

/-- `evaluate_response` (interviewer.py lines 111-150).  The gateway reply text
is the oracle argument `content`; the rubric lookup feeds only the prompt.
Returns the mutated state together with the `{"score", "rationale"}` dict. -/
def evaluate_response (s : AgentState) (content : String) :
    Except PyError (AgentState × Option Nat × String) :=
  match fetch_next_question s with
  | Except.error e => Except.error e
  | Except.ok (question_info, s1) =>
    match pyGet s1.eval_criteria with
    | Except.error e => Except.error e
    | Except.ok crit =>
      let _criteria :=
        match question_info.competency with
        | some c => dictGetD crit c []
        | none => []
      let score := extractScore content
      let rationale := content
      let s2 : AgentState :=
        { s1 with
          eval_results :=
            some ((s1.eval_results.getD []) ++
              [{ question := question_info.question, competency := question_info.competency,
                 score := score, rationale := rationale }]) }
      match pyInc s2.idx with
      | Except.error e => Except.error e
      | Except.ok newIdx =>
        Except.ok ({ s2 with idx := some newIdx }, score, rationale)

/-- The scripted welcome template of `welcome_node` (interviewer.py lines
159-181); the surrounding prose is elided, the interpolated state fields are
kept (all read through `.get` with defaults, so the template never raises). -/
def scriptedWelcome (s : AgentState) : String :=
  "Welcome, " ++ s.candidate_name.getD "Candidate" ++
  ", and thank you for taking the time to interview with us today for the " ++
  s.position.getD "role" ++ " position at " ++ s.company.getD "our company" ++
  ". We are excited to learn more about how you might contribute to our mission of " ++
  s.company_mission.getD "driving innovation" ++ "."

/-- `welcome_node` (interviewer.py lines 154-185): appends the scripted welcome. -/
def welcome_node (s : AgentState) : Except PyError AgentState :=
  Except.ok { s with messages := s.messages ++ [aiMessage (scriptedWelcome s)] }

/-- `fetch_question_node` (interviewer.py lines 188-192): fetches the next
question, appends it, and records its competency. -/
def fetch_question_node (s : AgentState) : Except PyError AgentState :=
  match fetch_next_question s with
  | Except.error e => Except.error e
  | Except.ok (question_info, s1) =>
    Except.ok { s1 with
      messages := s1.messages ++ [aiMessage question_info.question],
      current_competency := some question_info.competency }

/-- `routing_node` (interviewer.py lines 194-203): writes back
`state.get("follow_up_count", 0)`; no other effect. -/
def routing_node (s : AgentState) : Except PyError AgentState :=
  Except.ok { s with follow_up_count := some (s.follow_up_count.getD 0) }

/-- `follow_up_question_node` (interviewer.py lines 205-227): reads
`messages[-2]`, `messages[-1]` and `state["current_competency"]` (for the
prompt), then appends the gateway's follow-up text `content`. -/
def follow_up_question_node (s : AgentState) (content : String) : Except PyError AgentState :=
  match listGetBack s.messages 2 with
  | Except.error e => Except.error e
  | Except.ok _original_question =>
    match listGetBack s.messages 1 with
    | Except.error e => Except.error e
    | Except.ok _response =>
      match pyGet s.current_competency with
      | Except.error e => Except.error e
      | Except.ok _competency =>
        Except.ok { s with messages := s.messages ++ [aiMessage content] }

/-- The scripted closing template of `closing_remarks_node` (interviewer.py
lines 256-265), prose elided, interpolations kept. -/
def scriptedClosing (s : AgentState) (llm_feedback : String) : String :=
  "Thank you, " ++ s.candidate_name.getD "Candidate" ++
  ", for your time and thoughtful responses today. " ++ llm_feedback ++
  " Next steps: our team will review your interview responses in detail."

/-- `closing_remarks_node` (interviewer.py lines 229-269): the candidate
responses are collected for the prompt; the gateway feedback `llm_feedback` is
spliced into the scripted closing, which is appended. -/
def closing_remarks_node (s : AgentState) (llm_feedback : String) : Except PyError AgentState :=
  let _responses := (s.messages.filter (fun m => m.role = MessageRole.human)).map Message.content
  Except.ok { s with messages := s.messages ++ [aiMessage (scriptedClosing s llm_feedback)] }

/-- `evaluate_response_node` (interviewer.py lines 276-285): reads
`messages[-1]`, runs `evaluate_response`, then re-reads the categories
(the `.get` default indexes `state["questions"]` eagerly) and
`state["category_idx"]`; both branches of the final check return the state. -/
def evaluate_response_node (s : AgentState) (content : String) : Except PyError AgentState :=
  match listGetBack s.messages 1 with
  | Except.error e => Except.error e
  | Except.ok _response =>
    match evaluate_response s content with
    | Except.error e => Except.error e
    | Except.ok (s1, _score, _rationale) =>
      match pyGet s1.questions with
      | Except.error e => Except.error e
      | Except.ok qs =>
        let _categories := categoriesOf s1 qs
        match pyGet s1.category_idx with
        | Except.error e => Except.error e
        | Except.ok _category_idx => Except.ok s1

/-- Python `sum` over a list of optional ints: `TypeError` as soon as a `None`
participates, otherwise the sum of the values. -/
def pySum (l : List (Option Nat)) : Except PyError Nat :=
  if l.any Option.isNone then Except.error PyError.typeError
  else Except.ok ((l.map (fun x => x.getD 0)).sum)

/-- The grouping loop of `final_evaluation_node` (interviewer.py lines
293-299): an insertion-ordered map from competency (which can be `None`, as on
the exhaustion sentinel record) to the list of that competency's scores. -/
def addScore (acc : List (Option String × List (Option Nat))) (c : Option String)
    (sc : Option Nat) : List (Option String × List (Option Nat)) :=
  if acc.any (fun p => p.1 = c) then
    acc.map (fun p => if p.1 = c then (p.1, p.2 ++ [sc]) else p)
  else acc ++ [(c, [sc])]

/-- `final_scores` as built by the loop of interviewer.py lines 293-299. -/
def final_scores (results : List EvalRecord) : List (Option String × List (Option Nat)) :=
  results.foldl (fun acc r => addScore acc r.competency r.score) []

/-- `summary_scores = {k: sum(v) / len(v) for k, v in final_scores.items()}`
(interviewer.py line 302); `/` is true division, modelled over `Rat`. -/
def summary_scores (results : List EvalRecord) : Except PyError (List (Option String × Rat)) :=
  (final_scores results).mapM (fun kv =>
    match pySum kv.2 with
    | Except.error e => Except.error e
    | Except.ok total => Except.ok (kv.1, (total : Rat) / (kv.2.length : Rat)))

/-- `final_evaluation_node` (interviewer.py lines 287-331): aggregates
`state["eval_results"]`, stores the summary with the gateway narrative
`summaryText`, and appends a log message. -/
def final_evaluation_node (s : AgentState) (summaryText : String) : Except PyError AgentState :=
  match pyGet s.eval_results with
  | Except.error e => Except.error e
  | Except.ok results =>
    match summary_scores results with
    | Except.error e => Except.error e
    | Except.ok summary =>
      Except.ok { s with
        final_evaluation := some (summary, summaryText),
        messages := s.messages ++ [aiMessage "Final evaluation completed."] }

/-- A model reply in the tool-augmented variant: text plus optional tool calls. -/
structure ModelResponse where
  id : Option String
  content : String
  tool_calls : List ToolCall
deriving DecidableEq, Repr

/-- The fixed refusal text of `acall_model` (interviewer.py line 102). -/
def refusalText : String := "Sorry, need more steps to process this request."

/-- `acall_model` (interviewer.py lines 92-107): the gateway reply is the
oracle argument `response`; when `state["remaining_steps"] < 2` and the reply
still requests tool calls, a fixed refusal message (with the reply's id and no
tool calls) is returned instead of the reply. -/
def acall_model (s : AgentState) (response : ModelResponse) : Except PyError (List Message) :=
  match pyGet s.remaining_steps with
  | Except.error e => Except.error e
  | Except.ok remaining_steps =>
    if remaining_steps < 2 ∧ response.tool_calls ≠ [] then
      Except.ok [{ role := MessageRole.ai, content := refusalText,
                   id := response.id, tool_calls := [] }]
    else
      Except.ok [{ role := MessageRole.ai, content := response.content,
                   id := response.id, tool_calls := response.tool_calls }]

/-- `pending_tool_calls` (interviewer.py lines 367-373): raises `TypeError`
unless the last message is an AIMessage, then routes on its tool calls. -/
def pending_tool_calls (s : AgentState) : Except PyError String :=
  match listGetBack s.messages 1 with
  | Except.error e => Except.error e
  | Except.ok last_message =>
    if last_message.role ≠ MessageRole.ai then Except.error PyError.typeError
    else if last_message.tool_calls ≠ [] then Except.ok "tools" else Except.ok "done"

/-- The nodes of the compiled `StateGraph` (interviewer.py lines 334-363). -/
inductive Node where
  | welcome
  | fetch_question
  | evaluate_response
  | routing
  | follow_up_question
  | closing_remarks
  | final_evaluation
deriving DecidableEq, Repr

/-- The `path_map` of the conditional edge out of `routing`
(interviewer.py lines 353-361). -/
def pathTarget (p : String) : Option Node :=
  if p = "follow_up_question" then some Node.follow_up_question
  else if p = "fetch_question" then some Node.fetch_question
  else if p = "end_interview" then some Node.closing_remarks
  else none

/-- One controller transition of the compiled graph: runs the node on the
state (with `o` the text the node's gateway call returns, if any) and yields
the successor node along the graph's edges; `none` means the run ends there
(`follow_up_question` has no outgoing edge; `final_evaluation` is last). -/
def stepNode (n : Node) (s : AgentState) (o : String) :
    Except PyError (AgentState × Option Node) :=
  match n with
  | Node.welcome =>
    (welcome_node s).map (fun s' => (s', some Node.fetch_question))
  | Node.fetch_question =>
    (fetch_question_node s).map (fun s' => (s', some Node.evaluate_response))
  | Node.evaluate_response =>
    (evaluate_response_node s o).map (fun s' => (s', some Node.routing))
  | Node.routing =>
    match routing_node s with
    | Except.error e => Except.error e
    | Except.ok s' =>
      match determine_next_path s' with
      | Except.error e => Except.error e
      | Except.ok p => Except.ok (s', pathTarget p)
  | Node.follow_up_question =>
    (follow_up_question_node s o).map (fun s' => (s', none))
  | Node.closing_remarks =>
    (closing_remarks_node s o).map (fun s' => (s', some Node.final_evaluation))
  | Node.final_evaluation =>
    (final_evaluation_node s o).map (fun s' => (s', none))

/-- The suspension phases of §4.3's `AWAIT_INPUT(phase)`. -/
inductive Phase where
  | welcome
  | interview
deriving DecidableEq, Repr

/-- Where `CLASSIFY(phase)` sends the controller next. -/
inductive SpecTarget where
  | await (p : Phase)
  | fetchQuestion
  | scoreAndCheck
deriving DecidableEq, Repr

/-- The session data the CLASSIFY / ANSWER_MISC cycle touches. -/
structure SpecSession where
  transcript : List Message
  category_idx : Nat
  question_idx : Nat
deriving DecidableEq, Repr

/-- Modelled from the spec: the CLASSIFY(phase) and ANSWER_MISC(phase)
controller states of §4.3 are missing from src (the interviewer `StateGraph`
has no classify or answer-misc node, and the `human_demo` ask-human variant
carries no interview cursor).  Per the spec's transition table: CLASSIFY asks
the gateway whether the inbound message is a process or meta question; on yes,
ANSWER_MISC generates a free-text answer via the ModelGateway, appends it, and
returns to AWAIT_INPUT(phase) with the original question context preserved and
the cursor unchanged; on no, phase welcome goes to FETCH_QUESTION and phase
interview to SCORE_AND_CHECK.  `isMeta` is the classifier's verdict and
`answer` the generated reply. -/
def classify_dispatch (sess : SpecSession) (phase : Phase) (isMeta : Bool)
    (answer : String) : SpecSession × SpecTarget :=
  if isMeta then
    ({ sess with transcript := sess.transcript ++ [aiMessage answer] }, SpecTarget.await phase)
  else
    match phase with
    | Phase.welcome => (sess, SpecTarget.fetchQuestion)
    | Phase.interview => (sess, SpecTarget.scoreAndCheck)

/-! ### Concrete fixtures

Small question banks and states used by the closed counterexample and witness
theorems below.  `baseState` has every optional key absent. -/

/-- An `AgentState` with every optional key of the TypedDict absent. -/
def baseState : AgentState :=
  { messages := [], idx := none, category_idx := none, questions := none,
    eval_criteria := none, eval_results := none, categories := none,
    follow_up_count := none, sufficient_response := none, category := none,
    current_competency := none, candidate_name := none, position := none,
    company := none, company_mission := none, remaining_steps := none,
    final_evaluation := none }

/-- A one-category bank: `behavioral` with a single question. -/
def bankOne : List (String × List Question) :=
  [("behavioral", [{ question := "Q1", competency := "Problem-Solving" }])]

/-- A two-category bank: one `behavioral` question, one `technical` question. -/
def bankTwo : List (String × List Question) :=
  [("behavioral", [{ question := "Q1", competency := "Problem-Solving" }]),
   ("technical", [{ question := "Q2", competency := "Technical Expertise" }])]

/-- The state reached by the C9/C1 witness transition: `routing` on the empty
base state initializes the follow-up count and routes to the follow-up node. -/
def routedBase : AgentState := { baseState with follow_up_count := some 0 }
/-- A mid-session state: category 0 (`behavioral`, one question) fully
answered (`idx = 1`), `technical` still to come. -/
def sC5 : AgentState := { baseState with
  questions := some bankTwo, category_idx := some 0, idx := some 1 }
/-- The state after the `fetch_question` transition from `sC5`: the cursor
advanced to the `technical` category and `idx` was reset to 0. -/
def sC5After : AgentState := { sC5 with
  category_idx := some 1, idx := some 0,
  messages := [aiMessage "Q2"],
  current_competency := some (some "Technical Expertise") }
/-- A cursor sitting past the single question of the single category. -/
def sC2 : AgentState := { baseState with
  questions := some bankOne, category_idx := some 0, idx := some 1 }
/-- The state `fetch_next_question` leaves behind after returning the Done
sentinel from `sC2`: `category_idx` pushed past the last category. -/
def sC2Done : AgentState := { sC2 with category_idx := some 1, idx := some 0 }
/-- A state in which a follow-up is not warranted (`follow_up_count = 2`), the
`behavioral` category is exhausted (`idx = 1` past its single question), and
the `technical` category still holds an unasked question. -/
def sC3 : AgentState := { baseState with
  questions := some bankTwo, category_idx := some 0, idx := some 1,
  follow_up_count := some 2 }
/-- A state whose cursor sits on the first (and only) `behavioral` question. -/
def sC3w : AgentState := { baseState with
  questions := some bankTwo, category_idx := some 0, idx := some 0 }
/-- A record whose score failed to parse (absent score). -/
def recAbsent : EvalRecord :=
  { question := "q", competency := some "X", score := none, rationale := "r" }
/-- A record scored 3 for the same competency. -/
def recScored : EvalRecord :=
  { question := "q", competency := some "X", score := some 3, rationale := "r" }
/-- A ready-to-evaluate state sitting on the single `behavioral` question. -/
def sE : AgentState := { baseState with
  questions := some bankOne, category_idx := some 0, idx := some 0,
  eval_criteria := some [], eval_results := some [] }
/-- The state `evaluate_response sE "5\nok"` produces: one record appended,
`idx` bumped to 1. -/
def sEAfter : AgentState := { sE with
  eval_results := some [{ question := "Q1", competency := some "Problem-Solving",
                          score := some 5, rationale := "5\nok" }],
  idx := some 1 }
/-- A state whose `behavioral` category is exhausted but `technical` is not;
`evaluate_response` from here fetches across the category boundary. -/
def sC10 : AgentState := { baseState with
  questions := some bankTwo, category_idx := some 0, idx := some 1,
  eval_criteria := some [], eval_results := some [] }
/-- The state `evaluate_response sC10 "no score"` produces: the fetch inside
advanced the category and reset `idx` to 0, so the increment lands on 1. -/
def sC10After : AgentState := { sC10 with
  category_idx := some 1, idx := some 1,
  eval_results := some [{ question := "Q2", competency := some "Technical Expertise",
                          score := none, rationale := "no score" }] }
/-- A state with one remaining step, and a reply that still wants the
calculator tool. -/
def sC8 : AgentState := { baseState with remaining_steps := some 1 }
/-- A model reply requesting a tool call. -/
def respTool : ModelResponse :=
  { id := none, content := "", tool_calls := [{ name := "calculator", args := "1+1" }] }

/-! ### Frame and characterization lemmas -/

/-- A successful `fetch_next_question` either returns the state unchanged
(the within-category path) or advances `category_idx` by one and resets `idx`
to 0 (the category-boundary and exhaustion paths); nothing else changes. -/
theorem fetch_next_question_ok_shape (s : AgentState) (qi : QuestionInfo) (s1 : AgentState)
    (h : fetch_next_question s = Except.ok (qi, s1)) :
    s1 = s ∨
    (∃ c, s.category_idx = some c ∧ s1 = { s with category_idx := some (c + 1), idx := some 0 }) := by
  unfold fetch_next_question at h
  cases hq : pyGet s.questions with
  | error e => simp [hq] at h
  | ok qs =>
  simp only [hq] at h
  cases hc : listGet? (categoriesOf s qs) (s.category_idx.getD 0) with
  | error e => simp [hc] at h
  | ok category =>
  simp only [hc] at h
  by_cases hex : (dictGetD qs category []).length ≤ s.idx.getD 0
  · simp only [if_pos hex] at h
    cases hinc : pyInc s.category_idx with
    | error e => simp [hinc] at h
    | ok newCat =>
    simp only [hinc] at h
    have hci : ∃ c, s.category_idx = some c ∧ newCat = c + 1 := by
      cases hcat : s.category_idx with
      | none => rw [hcat] at hinc; exact absurd hinc (by simp [pyInc])
      | some c =>
        rw [hcat] at hinc
        simp only [pyInc, Except.ok.injEq] at hinc
        exact ⟨c, rfl, hinc.symm⟩
    obtain ⟨c, hcat, rfl⟩ := hci
    by_cases hdone : (categoriesOf s qs).length ≤ c + 1
    · simp only [if_pos hdone, Except.ok.injEq, Prod.mk.injEq] at h
      exact Or.inr ⟨c, hcat, h.2.symm⟩
    · simp only [if_neg hdone] at h
      cases hc2 : listGet? (categoriesOf s qs) (c + 1) with
      | error e => simp [hc2] at h
      | ok category2 =>
      simp only [hc2] at h
      cases hq0 : listGet? (dictGetD qs category2 []) 0 with
      | error e => simp [hq0] at h
      | ok q =>
      simp only [hq0, Except.ok.injEq, Prod.mk.injEq] at h
      exact Or.inr ⟨c, hcat, h.2.symm⟩
  · simp only [if_neg hex] at h
    cases hq1 : listGet? (dictGetD qs category []) (s.idx.getD 0) with
    | error e => simp [hq1] at h
    | ok q =>
    simp only [hq1, Except.ok.injEq, Prod.mk.injEq] at h
    exact Or.inl h.2.symm

/-- A successful `evaluate_response` is exactly: run `fetch_next_question`,
read the rubric, append one record (scored by `extractScore`, rationale = the
raw gateway text) and bump `idx` by one on the fetched state. -/
theorem evaluate_response_ok_shape (s : AgentState) (o : String) (s' : AgentState)
    (sc : Option Nat) (r : String)
    (h : evaluate_response s o = Except.ok (s', sc, r)) :
    sc = extractScore o ∧ r = o ∧
    ∃ qi s1 n, fetch_next_question s = Except.ok (qi, s1) ∧ s1.idx = some n ∧
      s' = { s1 with
             eval_results := some ((s1.eval_results.getD []) ++
               [{ question := qi.question, competency := qi.competency,
                  score := extractScore o, rationale := o }]),
             idx := some (n + 1) } := by
  unfold evaluate_response at h
  cases hf : fetch_next_question s with
  | error e => simp [hf] at h
  | ok p =>
  obtain ⟨qi, s1⟩ := p
  simp only [hf] at h
  cases hcrit : pyGet s1.eval_criteria with
  | error e => simp [hcrit] at h
  | ok crit =>
  simp only [hcrit] at h
  cases hidx : s1.idx with
  | none => simp [pyInc, hidx] at h
  | some n =>
  simp only [pyInc, hidx, Except.ok.injEq, Prod.mk.injEq] at h
  obtain ⟨hs', hsc, hr⟩ := h
  exact ⟨hsc.symm, hr.symm, qi, s1, n, rfl, hidx, hs'.symm⟩

/-- `welcome_node` only appends the scripted welcome message. -/
theorem welcome_node_ok_shape (s : AgentState) (s' : AgentState)
    (h : welcome_node s = Except.ok s') :
    s' = { s with messages := s.messages ++ [aiMessage (scriptedWelcome s)] } := by
  simp only [welcome_node, Except.ok.injEq] at h
  exact h.symm

/-- `fetch_question_node` is a successful fetch followed by appending the
fetched question and recording its competency. -/
theorem fetch_question_node_ok_shape (s : AgentState) (s' : AgentState)
    (h : fetch_question_node s = Except.ok s') :
    ∃ qi s1, fetch_next_question s = Except.ok (qi, s1) ∧
      s' = { s1 with
             messages := s1.messages ++ [aiMessage qi.question],
             current_competency := some qi.competency } := by
  unfold fetch_question_node at h
  cases hf : fetch_next_question s with
  | error e => simp [hf] at h
  | ok p =>
  obtain ⟨qi, s1⟩ := p
  simp only [hf, Except.ok.injEq] at h
  exact ⟨qi, s1, rfl, h.symm⟩

/-- `routing_node` only writes back `state.get("follow_up_count", 0)`. -/
theorem routing_node_ok_shape (s : AgentState) (s' : AgentState)
    (h : routing_node s = Except.ok s') :
    s' = { s with follow_up_count := some (s.follow_up_count.getD 0) } := by
  simp only [routing_node, Except.ok.injEq] at h
  exact h.symm

/-- `follow_up_question_node` only appends the generated follow-up text. -/
theorem follow_up_question_node_ok_shape (s : AgentState) (o : String) (s' : AgentState)
    (h : follow_up_question_node s o = Except.ok s') :
    s' = { s with messages := s.messages ++ [aiMessage o] } := by
  unfold follow_up_question_node at h
  cases h2 : listGetBack s.messages 2 with
  | error e => simp [h2] at h
  | ok m2 =>
  simp only [h2] at h
  cases h1 : listGetBack s.messages 1 with
  | error e => simp [h1] at h
  | ok m1 =>
  simp only [h1] at h
  cases hcc : pyGet s.current_competency with
  | error e => simp [hcc] at h
  | ok cc =>
  simp only [hcc, Except.ok.injEq] at h
  exact h.symm

/-- `closing_remarks_node` only appends the scripted-plus-generated closing. -/
theorem closing_remarks_node_ok_shape (s : AgentState) (o : String) (s' : AgentState)
    (h : closing_remarks_node s o = Except.ok s') :
    s' = { s with messages := s.messages ++ [aiMessage (scriptedClosing s o)] } := by
  simp only [closing_remarks_node, Except.ok.injEq] at h
  exact h.symm

/-- A successful `evaluate_response_node` returns exactly the state produced by
`evaluate_response`. -/
theorem evaluate_response_node_ok_shape (s : AgentState) (o : String) (s' : AgentState)
    (h : evaluate_response_node s o = Except.ok s') :
    ∃ sc r, evaluate_response s o = Except.ok (s', sc, r) := by
  unfold evaluate_response_node at h
  cases hm : listGetBack s.messages 1 with
  | error e => simp [hm] at h
  | ok m =>
  simp only [hm] at h
  cases he : evaluate_response s o with
  | error e => simp [he] at h
  | ok p =>
  obtain ⟨s1, sc, r⟩ := p
  simp only [he] at h
  cases hq : pyGet s1.questions with
  | error e => simp [hq] at h
  | ok qs =>
  simp only [hq] at h
  cases hci : pyGet s1.category_idx with
  | error e => simp [hci] at h
  | ok ci =>
  simp only [hci, Except.ok.injEq] at h
  exact ⟨sc, r, by rw [h]⟩

/-- `final_evaluation_node` stores the aggregated summary and appends the log
message; the rest of the state is untouched. -/
theorem final_evaluation_node_ok_shape (s : AgentState) (o : String) (s' : AgentState)
    (h : final_evaluation_node s o = Except.ok s') :
    ∃ results summary, s.eval_results = some results ∧
      summary_scores results = Except.ok summary ∧
      s' = { s with
             final_evaluation := some (summary, o),
             messages := s.messages ++ [aiMessage "Final evaluation completed."] } := by
  unfold final_evaluation_node at h
  cases hr : pyGet s.eval_results with
  | error e => simp [hr] at h
  | ok results =>
  simp only [hr] at h
  cases hs : summary_scores results with
  | error e => simp [hs] at h
  | ok summary =>
  simp only [hs, Except.ok.injEq] at h
  refine ⟨results, summary, ?_, hs, h.symm⟩
  cases hres : s.eval_results with
  | none => rw [hres] at hr; exact absurd hr (by simp [pyGet])
  | some l => rw [hres] at hr; simp only [pyGet, Except.ok.injEq] at hr; rw [hr]

/-- Fields of the state that a successful `fetch_next_question` never touches. -/
theorem fetch_next_question_frame (s : AgentState) (qi : QuestionInfo) (s1 : AgentState)
    (h : fetch_next_question s = Except.ok (qi, s1)) :
    s1.messages = s.messages ∧ s1.eval_results = s.eval_results ∧
    s1.follow_up_count = s.follow_up_count ∧ s1.sufficient_response = s.sufficient_response ∧
    s1.questions = s.questions ∧ s1.categories = s.categories ∧
    s1.eval_criteria = s.eval_criteria ∧ s1.category = s.category := by
  rcases fetch_next_question_ok_shape s qi s1 h with rfl | ⟨c, -, rfl⟩ <;> simp

/-! ### Claim theorems -/

/-- C9: the transcript is append-only — for every controller transition of the
compiled graph (welcome, fetch question, evaluate, routing, follow-up, closing
remarks, final evaluation) that completes, the message list before the
transition is a prefix of the message list after it, so transcript length is
non-decreasing across every transition of every session. -/
theorem c9_transcript_append_only (n : Node) (s : AgentState) (o : String)
    (s' : AgentState) (nd : Option Node)
    (h : stepNode n s o = Except.ok (s', nd)) :
    ∃ t, s'.messages = s.messages ++ t := by
  cases n with
  | welcome =>
    simp only [stepNode] at h
    cases hw : welcome_node s with
    | error e => simp [hw, Except.map] at h
    | ok w =>
      simp only [hw, Except.map, Except.ok.injEq, Prod.mk.injEq] at h
      obtain ⟨rfl, -⟩ := h
      rw [welcome_node_ok_shape s w hw]
      exact ⟨[aiMessage (scriptedWelcome s)], by simp⟩
  | fetch_question =>
    simp only [stepNode] at h
    cases hw : fetch_question_node s with
    | error e => simp [hw, Except.map] at h
    | ok w =>
      simp only [hw, Except.map, Except.ok.injEq, Prod.mk.injEq] at h
      obtain ⟨rfl, -⟩ := h
      obtain ⟨qi, s1, hf, rfl⟩ := fetch_question_node_ok_shape s w hw
      obtain ⟨hm, -⟩ := fetch_next_question_frame s qi s1 hf
      exact ⟨[aiMessage qi.question], by simp [hm]⟩
  | evaluate_response =>
    simp only [stepNode] at h
    cases hw : evaluate_response_node s o with
    | error e => simp [hw, Except.map] at h
    | ok w =>
      simp only [hw, Except.map, Except.ok.injEq, Prod.mk.injEq] at h
      obtain ⟨rfl, -⟩ := h
      obtain ⟨sc, r, he⟩ := evaluate_response_node_ok_shape s o w hw
      obtain ⟨-, -, qi, s1, m, hf, -, rfl⟩ := evaluate_response_ok_shape s o w sc r he
      obtain ⟨hm, -⟩ := fetch_next_question_frame s qi s1 hf
      exact ⟨[], by simp [hm]⟩
  | routing =>
    simp only [stepNode, routing_node] at h
    cases hd : determine_next_path { s with follow_up_count := some (s.follow_up_count.getD 0) } with
    | error e => simp [hd] at h
    | ok p =>
      simp only [hd, Except.ok.injEq, Prod.mk.injEq] at h
      obtain ⟨rfl, -⟩ := h
      exact ⟨[], by simp⟩
  | follow_up_question =>
    simp only [stepNode] at h
    cases hw : follow_up_question_node s o with
    | error e => simp [hw, Except.map] at h
    | ok w =>
      simp only [hw, Except.map, Except.ok.injEq, Prod.mk.injEq] at h
      obtain ⟨rfl, -⟩ := h
      rw [follow_up_question_node_ok_shape s o w hw]
      exact ⟨[aiMessage o], by simp⟩
  | closing_remarks =>
    simp only [stepNode] at h
    cases hw : closing_remarks_node s o with
    | error e => simp [hw, Except.map] at h
    | ok w =>
      simp only [hw, Except.map, Except.ok.injEq, Prod.mk.injEq] at h
      obtain ⟨rfl, -⟩ := h
      rw [closing_remarks_node_ok_shape s o w hw]
      exact ⟨[aiMessage (scriptedClosing s o)], by simp⟩
  | final_evaluation =>
    simp only [stepNode] at h
    cases hw : final_evaluation_node s o with
    | error e => simp [hw, Except.map] at h
    | ok w =>
      simp only [hw, Except.map, Except.ok.injEq, Prod.mk.injEq] at h
      obtain ⟨rfl, -⟩ := h
      obtain ⟨results, summary, -, -, rfl⟩ := final_evaluation_node_ok_shape s o w hw
      exact ⟨[aiMessage "Final evaluation completed."], by simp⟩

/-- C9 witness: the append-only theorem applied at the concrete `routing`
transition from `baseState`. -/
theorem c9_transcript_append_only_witness :
    ∃ t, routedBase.messages = baseState.messages ++ t :=
  c9_transcript_append_only Node.routing baseState "" routedBase
    (some Node.follow_up_question) (by rfl)

/-- C1: the claim says an insufficient response with `follow_up_count < 2`
goes to FOLLOW_UP *and increments the count*, so a third insufficient response
routes to FETCH_QUESTION.  The code never increments the count: this theorem
shows (1) every transition of the compiled graph preserves
`follow_up_count` (`routing_node` merely writes back its current value-or-0,
`follow_up_question_node` does not touch it), and (2) whenever the count is
below 2 and `sufficient_response` is unset-or-false, `determine_next_path`
still chooses `follow_up_question` — so the third (and every later)
insufficient response to the same question routes to FOLLOW_UP, not
FETCH_QUESTION, and the two-follow-up bound is not enforced. -/
theorem c1_follow_up_count_frozen :
    (∀ (n : Node) (s : AgentState) (o : String) (s' : AgentState) (nd : Option Node),
        stepNode n s o = Except.ok (s', nd) →
        s'.follow_up_count.getD 0 = s.follow_up_count.getD 0) ∧
    (∀ s : AgentState, s.follow_up_count.getD 0 < 2 →
        s.sufficient_response.getD false = false →
        determine_next_path s = Except.ok "follow_up_question") := by
  constructor
  · intro n s o s' nd h
    cases n with
    | welcome =>
      simp only [stepNode] at h
      cases hw : welcome_node s with
      | error e => simp [hw, Except.map] at h
      | ok w =>
        simp only [hw, Except.map, Except.ok.injEq, Prod.mk.injEq] at h
        obtain ⟨rfl, -⟩ := h
        rw [welcome_node_ok_shape s w hw]
    | fetch_question =>
      simp only [stepNode] at h
      cases hw : fetch_question_node s with
      | error e => simp [hw, Except.map] at h
      | ok w =>
        simp only [hw, Except.map, Except.ok.injEq, Prod.mk.injEq] at h
        obtain ⟨rfl, -⟩ := h
        obtain ⟨qi, s1, hf, rfl⟩ := fetch_question_node_ok_shape s w hw
        obtain ⟨-, -, hc, -⟩ := fetch_next_question_frame s qi s1 hf
        simp [hc]
    | evaluate_response =>
      simp only [stepNode] at h
      cases hw : evaluate_response_node s o with
      | error e => simp [hw, Except.map] at h
      | ok w =>
        simp only [hw, Except.map, Except.ok.injEq, Prod.mk.injEq] at h
        obtain ⟨rfl, -⟩ := h
        obtain ⟨sc, r, he⟩ := evaluate_response_node_ok_shape s o w hw
        obtain ⟨-, -, qi, s1, m, hf, -, rfl⟩ := evaluate_response_ok_shape s o w sc r he
        obtain ⟨-, -, hc, -⟩ := fetch_next_question_frame s qi s1 hf
        simp [hc]
    | routing =>
      simp only [stepNode, routing_node] at h
      cases hd : determine_next_path { s with follow_up_count := some (s.follow_up_count.getD 0) } with
      | error e => simp [hd] at h
      | ok p =>
        simp only [hd, Except.ok.injEq, Prod.mk.injEq] at h
        obtain ⟨rfl, -⟩ := h
        simp
    | follow_up_question =>
      simp only [stepNode] at h
      cases hw : follow_up_question_node s o with
      | error e => simp [hw, Except.map] at h
      | ok w =>
        simp only [hw, Except.map, Except.ok.injEq, Prod.mk.injEq] at h
        obtain ⟨rfl, -⟩ := h
        rw [follow_up_question_node_ok_shape s o w hw]
    | closing_remarks =>
      simp only [stepNode] at h
      cases hw : closing_remarks_node s o with
      | error e => simp [hw, Except.map] at h
      | ok w =>
        simp only [hw, Except.map, Except.ok.injEq, Prod.mk.injEq] at h
        obtain ⟨rfl, -⟩ := h
        rw [closing_remarks_node_ok_shape s o w hw]
    | final_evaluation =>
      simp only [stepNode] at h
      cases hw : final_evaluation_node s o with
      | error e => simp [hw, Except.map] at h
      | ok w =>
        simp only [hw, Except.map, Except.ok.injEq, Prod.mk.injEq] at h
        obtain ⟨rfl, -⟩ := h
        obtain ⟨results, summary, -, -, rfl⟩ := final_evaluation_node_ok_shape s o w hw
        simp
  · intro s h1 h2
    unfold determine_next_path
    rw [if_pos ⟨h1, h2⟩]

/-- C1 witness: the preservation half at the concrete `routing` transition out
of `baseState`, and the routing half at the resulting state (count 0, no
sufficiency verdict): the decision is again `follow_up_question`. -/
theorem c1_follow_up_count_frozen_witness :
    routedBase.follow_up_count.getD 0 = baseState.follow_up_count.getD 0 ∧
    determine_next_path routedBase = Except.ok "follow_up_question" :=
  ⟨c1_follow_up_count_frozen.1 Node.routing baseState "" routedBase
      (some Node.follow_up_question) (by rfl),
   c1_follow_up_count_frozen.2 routedBase (by decide) (by decide)⟩

/-- C5 counterexample: the claim that `question_idx` never decreases between
two observed states is false — the `fetch_question` transition from `sC5`
completes and resets `idx` from 1 to 0 while advancing the category. -/
theorem c5_question_idx_decreases :
    stepNode Node.fetch_question sC5 "" = Except.ok (sC5After, some Node.evaluate_response) ∧
    sC5.idx = some 1 ∧ sC5After.idx = some 0 ∧
    ¬ (sC5.idx.getD 0 ≤ sC5After.idx.getD 0) :=
  ⟨by rfl, rfl, rfl, by decide⟩

/-- C5 amended: across every completing transition, `category_idx` never
decreases, and `question_idx` never decreases as long as `category_idx` is
unchanged — the cursor is monotonically non-decreasing in lexicographic order,
but `question_idx` alone resets to 0 when the cursor advances to a new
category. -/
theorem c5_cursor_lex_monotone (n : Node) (s : AgentState) (o : String)
    (s' : AgentState) (nd : Option Node)
    (h : stepNode n s o = Except.ok (s', nd)) :
    s.category_idx.getD 0 ≤ s'.category_idx.getD 0 ∧
    (s'.category_idx.getD 0 = s.category_idx.getD 0 → s.idx.getD 0 ≤ s'.idx.getD 0) := by
  cases n with
  | welcome =>
    simp only [stepNode] at h
    cases hw : welcome_node s with
    | error e => simp [hw, Except.map] at h
    | ok w =>
      simp only [hw, Except.map, Except.ok.injEq, Prod.mk.injEq] at h
      obtain ⟨rfl, -⟩ := h
      rw [welcome_node_ok_shape s w hw]
      simp
  | fetch_question =>
    simp only [stepNode] at h
    cases hw : fetch_question_node s with
    | error e => simp [hw, Except.map] at h
    | ok w =>
      simp only [hw, Except.map, Except.ok.injEq, Prod.mk.injEq] at h
      obtain ⟨rfl, -⟩ := h
      obtain ⟨qi, s1, hf, rfl⟩ := fetch_question_node_ok_shape s w hw
      rcases fetch_next_question_ok_shape s qi s1 hf with rfl | ⟨c, hc, rfl⟩
      · simp
      · simp [hc]
  | evaluate_response =>
    simp only [stepNode] at h
    cases hw : evaluate_response_node s o with
    | error e => simp [hw, Except.map] at h
    | ok w =>
      simp only [hw, Except.map, Except.ok.injEq, Prod.mk.injEq] at h
      obtain ⟨rfl, -⟩ := h
      obtain ⟨sc, r, he⟩ := evaluate_response_node_ok_shape s o w hw
      obtain ⟨-, -, qi, s1, m, hf, hidx, rfl⟩ := evaluate_response_ok_shape s o w sc r he
      rcases fetch_next_question_ok_shape s qi s1 hf with rfl | ⟨c, hc, rfl⟩
      · simp [hidx]
      · simp [hc]
  | routing =>
    simp only [stepNode, routing_node] at h
    cases hd : determine_next_path { s with follow_up_count := some (s.follow_up_count.getD 0) } with
    | error e => simp [hd] at h
    | ok p =>
      simp only [hd, Except.ok.injEq, Prod.mk.injEq] at h
      obtain ⟨rfl, -⟩ := h
      simp
  | follow_up_question =>
    simp only [stepNode] at h
    cases hw : follow_up_question_node s o with
    | error e => simp [hw, Except.map] at h
    | ok w =>
      simp only [hw, Except.map, Except.ok.injEq, Prod.mk.injEq] at h
      obtain ⟨rfl, -⟩ := h
      rw [follow_up_question_node_ok_shape s o w hw]
      simp
  | closing_remarks =>
    simp only [stepNode] at h
    cases hw : closing_remarks_node s o with
    | error e => simp [hw, Except.map] at h
    | ok w =>
      simp only [hw, Except.map, Except.ok.injEq, Prod.mk.injEq] at h
      obtain ⟨rfl, -⟩ := h
      rw [closing_remarks_node_ok_shape s o w hw]
      simp
  | final_evaluation =>
    simp only [stepNode] at h
    cases hw : final_evaluation_node s o with
    | error e => simp [hw, Except.map] at h
    | ok w =>
      simp only [hw, Except.map, Except.ok.injEq, Prod.mk.injEq] at h
      obtain ⟨rfl, -⟩ := h
      obtain ⟨results, summary, -, -, rfl⟩ := final_evaluation_node_ok_shape s o w hw
      simp

/-- C5 witness: the amended monotonicity theorem applied to the concrete
`routing` transition from `baseState`. -/
theorem c5_cursor_lex_monotone_witness :
    baseState.category_idx.getD 0 ≤ routedBase.category_idx.getD 0 ∧
    (routedBase.category_idx.getD 0 = baseState.category_idx.getD 0 →
      baseState.idx.getD 0 ≤ routedBase.idx.getD 0) :=
  c5_cursor_lex_monotone Node.routing baseState "" routedBase
    (some Node.follow_up_question) (by rfl)

/-- C2 counterexample: upon exhausting the last category the fetch returns the
Done sentinel but does *not* leave the cursor unchanged (`category_idx` moves
from 0 to 1), and calling it again does not return Done — it raises an
out-of-range `IndexError` (from `categories[category_idx]`). -/
theorem c2_fetch_after_exhaustion_faults :
    fetch_next_question sC2 = Except.ok (doneInfo, sC2Done) ∧
    sC2Done.category_idx ≠ sC2.category_idx ∧
    fetch_next_question sC2Done = Except.error PyError.indexError :=
  ⟨by rfl, by decide, by rfl⟩

/-- C2 amended: upon exhausting the last category, `fetch_next_question`
returns the Done sentinel while advancing `category_idx` past the last
category (and resetting `idx` to 0); every call on a state whose
`category_idx` is at or past the number of categories raises an out-of-range
`IndexError` instead of returning Done again. -/
theorem c2_exhaustion_behavior :
    (∀ (s : AgentState) (qs : List (String × List Question)) (c : Nat) (cat : String),
        s.questions = some qs →
        s.category_idx = some c →
        (categoriesOf s qs).get? c = some cat →
        c + 1 = (categoriesOf s qs).length →
        (dictGetD qs cat []).length ≤ s.idx.getD 0 →
        fetch_next_question s =
          Except.ok (doneInfo, { s with category_idx := some (c + 1), idx := some 0 })) ∧
    (∀ (s : AgentState) (qs : List (String × List Question)),
        s.questions = some qs →
        (categoriesOf s qs).length ≤ s.category_idx.getD 0 →
        fetch_next_question s = Except.error PyError.indexError) := by
  constructor
  · intro s qs c cat hq hci hcat hlast hex
    unfold fetch_next_question
    simp only [hq, pyGet, hci, Option.getD_some, listGet?, hcat, if_pos hex, pyInc,
      if_pos (le_of_eq hlast.symm)]
  · intro s qs hq hpast
    unfold fetch_next_question
    have : (categoriesOf s qs).get? (s.category_idx.getD 0) = none :=
      List.get?_eq_none.mpr hpast
    simp only [hq, pyGet, listGet?, this]

/-- C2 witness: the amended theorem applied at the concrete exhausted cursor
`sC2` and at the concrete past-the-end cursor `sC2Done`. -/
theorem c2_exhaustion_behavior_witness :
    fetch_next_question sC2 =
      Except.ok (doneInfo, { sC2 with category_idx := some (0 + 1), idx := some 0 }) ∧
    fetch_next_question sC2Done = Except.error PyError.indexError :=
  ⟨c2_exhaustion_behavior.1 sC2 bankOne 0 "behavioral" rfl rfl (by rfl) (by rfl) (by decide),
   c2_exhaustion_behavior.2 sC2Done bankOne rfl (by decide)⟩

/-- C3 counterexample: from `sC3` the routing transition goes to
`closing_remarks` (the CLOSING state) even though the last category is not
exhausted — the very same state still fetches the question of the `technical`
category. -/
theorem c3_closing_before_last_category :
    stepNode Node.routing sC3 "" =
      Except.ok ({ sC3 with follow_up_count := some 2 }, some Node.closing_remarks) ∧
    fetch_next_question sC3 =
      Except.ok ({ question := "Q2", competency := some "Technical Expertise" },
        { sC3 with category_idx := some 1, idx := some 0 }) :=
  ⟨by rfl, by rfl⟩

/-- C3 amended: traversal is sequential within a category by index, and upon
exhausting a category that is not the last, `fetch_next_question` advances to
index 0 of the next category and returns its first question; but the
controller routes to CLOSING whenever no follow-up is warranted and `idx + 1`
reaches the question count of the category named by the state key `category`
(which no node ever writes, so it defaults to `behavioral`) — merely the
current category running out, regardless of whether later categories remain. -/
theorem c3_traversal_and_closing :
    (∀ (s : AgentState) (qs : List (String × List Question)) (cat : String) (q : Question),
        s.questions = some qs →
        (categoriesOf s qs).get? (s.category_idx.getD 0) = some cat →
        (dictGetD qs cat []).get? (s.idx.getD 0) = some q →
        fetch_next_question s =
          Except.ok ({ question := q.question, competency := some q.competency }, s)) ∧
    (∀ (s : AgentState) (qs : List (String × List Question)) (c : Nat) (cat cat2 : String)
        (q0 : Question) (rest : List Question),
        s.questions = some qs →
        s.category_idx = some c →
        (categoriesOf s qs).get? c = some cat →
        (dictGetD qs cat []).length ≤ s.idx.getD 0 →
        (categoriesOf s qs).get? (c + 1) = some cat2 →
        dictGetD qs cat2 [] = q0 :: rest →
        fetch_next_question s =
          Except.ok ({ question := q0.question, competency := some q0.competency },
            { s with category_idx := some (c + 1), idx := some 0 })) ∧
    (∀ (s : AgentState) (qs : List (String × List Question)),
        s.questions = some qs →
        ¬ (s.follow_up_count.getD 0 < 2 ∧ s.sufficient_response.getD false = false) →
        (determine_next_path s = Except.ok "end_interview" ↔
          (dictGetD qs (s.category.getD "behavioral") []).length ≤ s.idx.getD 0 + 1)) := by
  refine ⟨?_, ?_, ?_⟩
  · intro s qs cat q hq hcat hget
    have hlt : ¬ ((dictGetD qs cat []).length ≤ s.idx.getD 0) := by
      obtain ⟨hl, -⟩ := List.get?_eq_some.mp hget
      omega
    unfold fetch_next_question
    simp only [hq, pyGet, listGet?, hcat, if_neg hlt, hget]
  · intro s qs c cat cat2 q0 rest hq hci hcat hex hcat2 hnext
    have hlt : ¬ ((categoriesOf s qs).length ≤ c + 1) := by
      obtain ⟨hl, -⟩ := List.get?_eq_some.mp hcat2
      omega
    unfold fetch_next_question
    simp only [hq, pyGet, hci, Option.getD_some, listGet?, hcat, if_pos hex, pyInc,
      if_neg hlt, hcat2, hnext, List.get?]
  · intro s qs hq hnot
    unfold determine_next_path
    rw [if_neg hnot]
    simp only [hq, pyGet]
    by_cases hend : (dictGetD qs (s.category.getD "behavioral") []).length ≤ s.idx.getD 0 + 1
    · simp [if_pos hend, hend]
    · simp [if_neg hend, hend]

/-- C3 witness: the three parts of the amended theorem applied at concrete
states — an in-category fetch from `sC3w`, a boundary advance from `sC5`, and
the end-interview decision at `sC3`. -/
theorem c3_traversal_and_closing_witness :
    fetch_next_question sC3w =
      Except.ok ({ question := "Q1", competency := some "Problem-Solving" }, sC3w) ∧
    fetch_next_question sC5 =
      Except.ok ({ question := "Q2", competency := some "Technical Expertise" },
        { sC5 with category_idx := some (0 + 1), idx := some 0 }) ∧
    (determine_next_path sC3 = Except.ok "end_interview" ↔
      (dictGetD bankTwo (sC3.category.getD "behavioral") []).length ≤ sC3.idx.getD 0 + 1) :=
  ⟨c3_traversal_and_closing.1 sC3w bankTwo "behavioral"
      { question := "Q1", competency := "Problem-Solving" } rfl (by rfl) (by rfl),
   c3_traversal_and_closing.2.1 sC5 bankTwo 0 "behavioral" "technical"
      { question := "Q2", competency := "Technical Expertise" } [] rfl rfl (by rfl)
      (by decide) (by rfl) (by rfl),
   c3_traversal_and_closing.2.2 sC3 bankTwo rfl (by decide)⟩

/-- C4: the claim says aggregation averages only non-absent scores, omits a
competency whose records are all absent, and never faults on absent scores.
The code appends every score (absent or not) to its competency's list and
computes `sum(v) / len(v)`: a single absent score makes `sum` raise
`TypeError` — for an all-absent competency and equally for a competency that
also has scored records — while a fully scored list averages fine (no division
by zero only because every group is nonempty).  The faulting aggregate also
makes the whole `final_evaluation` transition fail. -/
theorem c4_aggregate_faults_on_absent_score :
    summary_scores [recAbsent] = Except.error PyError.typeError ∧
    summary_scores [recScored, recAbsent] = Except.error PyError.typeError ∧
    summary_scores [recScored] = Except.ok [(some "X", 3)] ∧
    final_evaluation_node { baseState with eval_results := some [recAbsent] } "s" =
      Except.error PyError.typeError := by
  refine ⟨by rfl, by rfl, ?_, by rfl⟩
  rw [show summary_scores [recScored] =
        Except.ok [(some "X", ((3 : Nat) : Rat) / ((1 : Nat) : Rat))] from rfl]
  norm_num

/-- C6: score extraction scans the reply for a line that strips to digits:
`"3\nrationale..."` parses to score 3; when no line of the reply strips to
digits the score is absent (`none`) and — as the last conjunct shows for every
successful `evaluate_response` — the raw reply text is always kept as the
rationale.  The parse is a total function (the `try/except` swallows every
parse failure), so it never raises. -/
theorem c6_score_extraction :
    extractScore "3\nrationale..." = some 3 ∧
    (∀ content : String,
        ((splitLines content.toList).all fun line => !(pyIsDigit (pyStrip line))) = true →
        extractScore content = none) ∧
    (∀ (s : AgentState) (o : String) (res : AgentState × Option Nat × String),
        evaluate_response s o = Except.ok res →
        res.2.1 = extractScore o ∧ res.2.2 = o) := by
  refine ⟨by decide, ?_, ?_⟩
  · intro content hall
    unfold extractScore
    have hfil : (splitLines content.toList).filter (fun line => pyIsDigit (pyStrip line)) = [] := by
      rw [List.filter_eq_nil_iff]
      intro a ha
      have := (List.all_eq_true.mp hall) a ha
      simpa using this
    rw [hfil]
  · intro s o res h
    obtain ⟨s1, sc, r⟩ := res
    obtain ⟨hsc, hr, -⟩ := evaluate_response_ok_shape s o s1 sc r h
    exact ⟨hsc, hr⟩

/-- C6 witness: the no-digit-line half at a concrete reply, and the
rationale-preservation half at a concrete successful evaluation. -/
theorem c6_score_extraction_witness :
    extractScore "no digits here" = none ∧
    ((sEAfter, some 5, "5\nok") : AgentState × Option Nat × String).2.1 =
        extractScore "5\nok" ∧
    ((sEAfter, some 5, "5\nok") : AgentState × Option Nat × String).2.2 = "5\nok" :=
  ⟨c6_score_extraction.2.1 "no digits here" (by decide),
   (c6_score_extraction.2.2 sE "5\nok" (sEAfter, some 5, "5\nok") (by decide)).1,
   (c6_score_extraction.2.2 sE "5\nok" (sEAfter, some 5, "5\nok") (by decide)).2⟩

/-- C10 counterexample: `evaluate_response` returns normally from `sC10` yet
`idx` ends at 1 — the very value it started at — because the internal fetch
reset it to 0 before the `+= 1`; the claimed "increments idx by exactly 1"
(which would give 2) is false. -/
theorem c10_idx_not_incremented_by_one :
    evaluate_response sC10 "no score" = Except.ok (sC10After, none, "no score") ∧
    sC10.idx = some 1 ∧ sC10After.idx = some 1 ∧
    ¬ (sC10After.idx = some (sC10.idx.getD 0 + 1)) :=
  ⟨by decide, rfl, rfl, by decide⟩

/-- C10 amended: whenever `evaluate_response` returns normally it appends
exactly one evaluation record to `eval_results` (scored by `extractScore`,
rationale kept raw — unconditionally, even when the score failed to parse and
regardless of any sufficiency judgment), and it increments by exactly 1 the
`idx` left by its internal `fetch_next_question`; this equals the entry
`idx + 1` whenever the fetch stayed within the category (`category_idx`
unchanged), but when the fetch crossed to a new category `idx` was reset to 0
first and ends at 1. -/
theorem c10_eval_appends_one_record (s : AgentState) (o : String) (s' : AgentState)
    (sc : Option Nat) (r : String)
    (h : evaluate_response s o = Except.ok (s', sc, r)) :
    ∃ qi s1 n, fetch_next_question s = Except.ok (qi, s1) ∧ s1.idx = some n ∧
      s'.eval_results = some ((s.eval_results.getD []) ++
        [{ question := qi.question, competency := qi.competency,
           score := extractScore o, rationale := o }]) ∧
      s'.idx = some (n + 1) ∧
      (s1.category_idx = s.category_idx → s'.idx = some (s.idx.getD 0 + 1)) := by
  obtain ⟨-, -, qi, s1, n, hf, hidx, rfl⟩ := evaluate_response_ok_shape s o s' sc r h
  obtain ⟨-, her, -⟩ := fetch_next_question_frame s qi s1 hf
  refine ⟨qi, s1, n, hf, hidx, by simp [her], by simp, ?_⟩
  intro hsame
  rcases fetch_next_question_ok_shape s qi s1 hf with rfl | ⟨c, hc, rfl⟩
  · simp only [hidx, Option.getD_some]
  · rw [hc] at hsame
    simp at hsame

/-- C10 witness: the amended theorem applied to the concrete successful
evaluation from `sE` with reply text containing the score line `5`. -/
theorem c10_eval_appends_one_record_witness :
    ∃ qi s1 n, fetch_next_question sE = Except.ok (qi, s1) ∧ s1.idx = some n ∧
      sEAfter.eval_results = some ((sE.eval_results.getD []) ++
        [{ question := qi.question, competency := qi.competency,
           score := extractScore "5\nok", rationale := "5\nok" }]) ∧
      sEAfter.idx = some (n + 1) ∧
      (s1.category_idx = sE.category_idx → sEAfter.idx = some (sE.idx.getD 0 + 1)) :=
  c10_eval_appends_one_record sE "5\nok" sEAfter (some 5) "5\nok" (by decide)

/-- C7: when the inbound candidate message is classified as a process/meta
question, the controller answers it (appending the generated reply) and
returns to the very same `AWAIT_INPUT(phase)` it came from, with both cursor
components unchanged — in particular a meta question during
`AWAIT_INPUT(welcome)` leaves the interview position exactly where it was. -/
theorem c7_answer_misc_preserves_position (sess : SpecSession) (phase : Phase)
    (m : Bool) (ans : String) (h : m = true) :
    (classify_dispatch sess phase m ans).2 = SpecTarget.await phase ∧
    (classify_dispatch sess phase m ans).1.category_idx = sess.category_idx ∧
    (classify_dispatch sess phase m ans).1.question_idx = sess.question_idx ∧
    (classify_dispatch sess phase m ans).1.transcript = sess.transcript ++ [aiMessage ans] := by
  subst h
  simp [classify_dispatch]

/-- C7 witness: a meta question during `AWAIT_INPUT(welcome)` at cursor
(0, 0): the reply is appended and the controller returns to the welcome
suspension point with the cursor untouched. -/
theorem c7_answer_misc_preserves_position_witness :
    (classify_dispatch { transcript := [], category_idx := 0, question_idx := 0 }
        Phase.welcome true "It is a structured interview.").2 = SpecTarget.await Phase.welcome ∧
    (classify_dispatch { transcript := [], category_idx := 0, question_idx := 0 }
        Phase.welcome true "It is a structured interview.").1.category_idx = 0 ∧
    (classify_dispatch { transcript := [], category_idx := 0, question_idx := 0 }
        Phase.welcome true "It is a structured interview.").1.question_idx = 0 ∧
    (classify_dispatch { transcript := [], category_idx := 0, question_idx := 0 }
        Phase.welcome true "It is a structured interview.").1.transcript =
      [] ++ [aiMessage "It is a structured interview."] :=
  c7_answer_misc_preserves_position
    { transcript := [], category_idx := 0, question_idx := 0 }
    Phase.welcome true "It is a structured interview." rfl

/-- The last element of `l ++ [a]` through Python's `l[-1]`. -/
theorem listGetBack_concat {α : Type} (l : List α) (a : α) :
    listGetBack (l ++ [a]) 1 = Except.ok a := by
  unfold listGetBack listGet?
  rw [if_pos (by simp)]
  simp [List.getElem?_concat_length]

/-- C8: in the tool-augmented variant, whenever fewer than 2 steps remain in
the budget and the model reply still requests a tool call, `acall_model`
returns the fixed refusal message (no tool calls, the reply's id) instead of
the reply — and since the refusal carries no tool calls, `pending_tool_calls`
on the resulting transcript routes to `done` rather than looping to the tool
node. -/
theorem c8_tool_budget_refusal (s : AgentState) (r : Int) (resp : ModelResponse)
    (h1 : s.remaining_steps = some r) (h2 : r < 2) (h3 : resp.tool_calls ≠ []) :
    acall_model s resp =
      Except.ok [{ role := MessageRole.ai, content := refusalText,
                   id := resp.id, tool_calls := [] }] ∧
    pending_tool_calls { s with messages := s.messages ++
        [{ role := MessageRole.ai, content := refusalText,
           id := resp.id, tool_calls := [] }] } = Except.ok "done" := by
  constructor
  · unfold acall_model
    simp only [h1, pyGet]
    rw [if_pos ⟨h2, h3⟩]
  · unfold pending_tool_calls
    simp [listGetBack_concat]

/-- C8 witness: the refusal theorem at the concrete one-step-left state and
tool-requesting reply. -/
theorem c8_tool_budget_refusal_witness :
    acall_model sC8 respTool =
      Except.ok [{ role := MessageRole.ai, content := refusalText,
                   id := respTool.id, tool_calls := [] }] ∧
    pending_tool_calls { sC8 with messages := sC8.messages ++
        [{ role := MessageRole.ai, content := refusalText,
           id := respTool.id, tool_calls := [] }] } = Except.ok "done" :=
  c8_tool_budget_refusal sC8 1 respTool rfl (by decide) (by decide)

end Interviewer
